import Mathlib

/-!
Verification of the client-side order-and-realtime synchronization core of a
multi-role storefront client (TypeScript/React source).  Each component needed
by the properties under scrutiny is shallowly embedded: React `useState` state
becomes explicit record state, module-level mutable variables become an
explicit state record threaded through the operations, async REST calls become
`Except`-valued oracle parameters, and event-handler closures become step
functions over the state.
-/

namespace Eco

/-! ## Realtime Connection Manager (src/lib/realtime.ts)

The source keeps two module-level variables:

  let sharedSocket: Socket | null = null;
  let socketToken: string | null = null;

They are always assigned and cleared together (`getRealtimeSocket` sets both,
`disconnectRealtimeSocket` clears both), so the pair is embedded as a single
`Option (Nat × String)`: the id of the shared socket together with the token it
was opened for.  Opening a transport (`io(WS_URL, ...)`) is modelled as
allocating a fresh id from `nextId`; the multiset of currently open transports
is tracked in `openConns` so "at most one live transport" is a statement about
the model, not an assumption baked into it. -/

inductive RtEvent where
  | openConn (id : Nat)
  | closeConn (id : Nat)
deriving DecidableEq, Repr

structure RtState where
  nextId : Nat
  /-- Embeds `sharedSocket` and `socketToken` (always both set or both null). -/
  shared : Option (Nat × String)
  /-- ids of transports that have been opened and not yet disconnected. -/
  openConns : List Nat
deriving DecidableEq, Repr

def initRtState : RtState := ⟨0, none, []⟩

structure AcquireResult where
  state : RtState
  handle : Nat
  trace : List RtEvent
deriving DecidableEq, Repr

/-- Source: `socketToken = accessToken; sharedSocket = io(WS_URL, {...}); return sharedSocket`
— the tail of `getRealtimeSocket`, after any disconnect of a stale socket
(whose close event is passed in as `closedTrace`). -/
def connectFresh (st : RtState) (accessToken : String)
    (remaining : List Nat) (closedTrace : List RtEvent) : AcquireResult :=
  { state := { nextId := st.nextId + 1
               shared := some (st.nextId, accessToken)
               openConns := remaining ++ [st.nextId] }
    handle := st.nextId
    trace := closedTrace ++ [RtEvent.openConn st.nextId] }

/-- Function `getRealtimeSocket(accessToken)` from src/lib/realtime.ts lines 40-58. -/
def getRealtimeSocket (st : RtState) (accessToken : String) : AcquireResult :=
  match st.shared with
  | some (s, t) =>
    if t = accessToken then
      -- `if (sharedSocket && socketToken === accessToken) return sharedSocket;`
      { state := st, handle := s, trace := [] }
    else
      -- `if (sharedSocket) sharedSocket.disconnect();` then connect anew
      connectFresh st accessToken (st.openConns.erase s) [RtEvent.closeConn s]
  | none => connectFresh st accessToken st.openConns []

/-- Function `disconnectRealtimeSocket()` from src/lib/realtime.ts lines 60-68. -/
def disconnectRealtimeSocket (st : RtState) : RtState × List RtEvent :=
  match st.shared with
  | none => (st, [])
  | some (s, _) =>
    ({ nextId := st.nextId, shared := none, openConns := st.openConns.erase s },
     [RtEvent.closeConn s])

inductive RtOp where
  | acquire (token : String)
  | release
deriving DecidableEq, Repr

def rtStep (st : RtState) : RtOp → RtState
  | .acquire tok => (getRealtimeSocket st tok).state
  | .release => (disconnectRealtimeSocket st).1

def runRt (ops : List RtOp) : RtState :=
  ops.foldl rtStep initRtState

/-- Reachability invariant: the open transports are exactly the shared socket
(if any), and allocated ids stay below `nextId`. -/
def rtInv (st : RtState) : Prop :=
  match st.shared with
  | some (s, _) => st.openConns = [s] ∧ s < st.nextId
  | none => st.openConns = []

theorem rtInv_init : rtInv initRtState := by
  simp [rtInv, initRtState]

theorem rtInv_step (st : RtState) (op : RtOp) (h : rtInv st) : rtInv (rtStep st op) := by
  cases op with
  | acquire tok =>
    cases hs : st.shared with
    | none =>
      simp [rtInv, hs] at h
      simp [rtStep, getRealtimeSocket, hs, connectFresh, rtInv, h]
    | some p =>
      obtain ⟨s, t⟩ := p
      simp [rtInv, hs] at h
      by_cases ht : t = tok
      · simp [rtStep, getRealtimeSocket, hs, ht, rtInv, h]
      · simp [rtStep, getRealtimeSocket, hs, ht, connectFresh, rtInv, h.1]
  | release =>
    cases hs : st.shared with
    | none => simpa [rtStep, disconnectRealtimeSocket, hs, rtInv] using h
    | some p =>
      obtain ⟨s, t⟩ := p
      simp [rtInv, hs] at h
      simp [rtStep, disconnectRealtimeSocket, hs, rtInv, h.1]

theorem rtInv_foldl (ops : List RtOp) (st : RtState) (h : rtInv st) :
    rtInv (ops.foldl rtStep st) := by
  induction ops generalizing st with
  | nil => exact h
  | cons op rest ih => exact ih _ (rtInv_step st op h)

theorem rtInv_run (ops : List RtOp) : rtInv (runRt ops) :=
  rtInv_foldl ops initRtState rtInv_init

theorem openConns_len_le_one (st : RtState) (h : rtInv st) : st.openConns.length ≤ 1 := by
  unfold rtInv at h
  cases hs : st.shared with
  | none => simp [hs] at h; simp [h]
  | some p => obtain ⟨s, t⟩ := p; rw [hs] at h; simp [h.1]

/-- C3: over any sequence of `getRealtimeSocket`/`disconnectRealtimeSocket`
calls, at most one realtime transport is open at any time; re-acquiring with
the token of the current connection returns the existing handle with the state
unchanged and no transport events (idempotent re-acquire); acquiring with a
different token emits the close of the prior transport strictly before the
open of the new one. -/
theorem realtime_single_transport (ops : List RtOp) :
    (runRt ops).openConns.length ≤ 1
    ∧ (∀ s t, (runRt ops).shared = some (s, t) →
        getRealtimeSocket (runRt ops) t =
          { state := runRt ops, handle := s, trace := [] })
    ∧ (∀ s t tok, (runRt ops).shared = some (s, t) → t ≠ tok →
        (getRealtimeSocket (runRt ops) tok).trace =
          [RtEvent.closeConn s, RtEvent.openConn (runRt ops).nextId]
        ∧ (getRealtimeSocket (runRt ops) tok).state.openConns =
            [(runRt ops).nextId]) := by
  have hinv := rtInv_run ops
  refine ⟨openConns_len_le_one _ hinv, ?_, ?_⟩
  · intro s t hs
    simp [getRealtimeSocket, hs]
  · intro s t tok hs hne
    have hopen : (runRt ops).openConns = [s] := by
      unfold rtInv at hinv
      rw [hs] at hinv
      exact hinv.1
    simp [getRealtimeSocket, hs, hne, connectFresh, hopen]

/-- Witness for `realtime_single_transport`: after `acquire "a"`, the shared
socket is id 0 for token "a"; re-acquiring with "a" is a no-op and acquiring
with "b" closes socket 0 before opening socket 1. -/
theorem realtime_single_transport_witness :
    (runRt [RtOp.acquire "a"]).openConns.length ≤ 1
    ∧ getRealtimeSocket (runRt [RtOp.acquire "a"]) "a" =
        { state := runRt [RtOp.acquire "a"], handle := 0, trace := [] }
    ∧ (getRealtimeSocket (runRt [RtOp.acquire "a"]) "b").trace =
        [RtEvent.closeConn 0, RtEvent.openConn 1] := by
  have h := realtime_single_transport [RtOp.acquire "a"]
  refine ⟨h.1, ?_, ?_⟩
  · exact h.2.1 0 "a" (by decide)
  · exact (h.2.2 0 "a" "b" (by decide) (by decide)).1

/-! ## Checkout Orchestrator (checkout page, `onPlaceOrder`)

The checkout page keeps its session in React `useState` hooks; these become
the fields of `CheckoutState`.  The REST endpoints (`createOrder`,
`stripeCheckout`, `waveCheckout`, `kbzpayCheckout`) are oracle functions in a
`CheckoutEnv`; a throwing call is an `Except.error` carrying the thrown
`Error`'s message.  `onPlaceOrder` returns the updated state, the list of
network calls issued (in order), and the navigation action taken. -/

inductive Fulfillment where
  | SHIPPING
  | PICKUP
deriving DecidableEq, Repr

inductive MmkProvider where
  | WAVE
  | KBZPAY
deriving DecidableEq, Repr

structure ShippingRateInfo where
  available : Bool
  flatRate : Option Int
  currency : String
deriving DecidableEq, Repr

structure CheckoutCartItem where
  id : String
  qty : Nat
  unitPrice : Int
  variantCurrency : String
deriving DecidableEq, Repr

structure CheckoutState where
  accessToken : Option String
  cartItems : List CheckoutCartItem
  fulfillment : Fulfillment
  shippingAddrId : String
  pickupLocId : String
  shippingRate : Option ShippingRateInfo
  mmkProvider : MmkProvider
  error : Option String
  message : Option String
deriving DecidableEq, Repr

/-- Type `CreateOrderInput` (src/lib/api.ts lines 737-741): optional fields are
omitted from the JSON body when `undefined`, hence `Option`. -/
structure CreateOrderReq where
  fulfillment : Fulfillment
  shippingAddrId : Option String
  pickupLocId : Option String
deriving DecidableEq, Repr

structure OrderRes where
  id : String
  currency : String
deriving DecidableEq, Repr

structure CheckoutEnv where
  createOrder : CreateOrderReq → Except String OrderRes
  /-- Endpoint `stripeCheckout` resolves to `{ url?: string, ... }`; the `Option` is the
  possibly-absent redirect url. -/
  stripeCheckout : String → Except String (Option String)
  waveCheckout : String → Except String Unit
  kbzpayCheckout : String → Except String Unit

inductive NetCall where
  | createOrderCall (req : CreateOrderReq)
  | stripeCall (orderId : String)
  | waveCall (orderId : String)
  | kbzpayCall (orderId : String)
deriving DecidableEq, Repr

inductive NavAction where
  | stay
  | externalRedirect (url : String)
  | pushOrders
deriving DecidableEq, Repr

structure PlaceOrderResult where
  state : CheckoutState
  calls : List NetCall
  nav : NavAction
deriving DecidableEq, Repr

/-- Whether `needle` occurs at the start of `hay`. -/
def charsHavePre (needle hay : List Char) : Bool :=
  match needle, hay with
  | [], _ => true
  | _ :: _, [] => false
  | a :: as, b :: bs => a = b && charsHavePre as bs

/-- Function `getReadableApiMessage` (checkout page lines 95-104): extract the detail of
an `API error <status>: <detail>` message; otherwise the raw message, or the
fallback when it is empty.  The regex `^API error \d+:\s*(.+)$` is embedded
directly; the only divergence is the degenerate case of a whitespace-only
detail, where the regex engine would capture a whitespace suffix and this
embedding falls through to the raw message. -/
def parseApiErrorDetail (msg : String) : Option String :=
  let cs := msg.data
  let pre := "API error ".data
  if charsHavePre pre cs then
    let rest := cs.drop pre.length
    let ds := rest.takeWhile Char.isDigit
    let rest2 := rest.dropWhile Char.isDigit
    match ds, rest2 with
    | [], _ => none
    | _ :: _, ':' :: rest3 =>
      let captured := rest3.dropWhile Char.isWhitespace
      if captured.isEmpty then none else some ⟨captured⟩
    | _ :: _, _ => none
  else none

def getReadableApiMessage (msg fallback : String) : String :=
  match parseApiErrorDetail msg with
  | some detail => detail
  | none => if msg = "" then fallback else msg

/-- Function `clearCheckoutCartState()` (checkout page lines 132-136). -/
def clearCheckoutCartState (st : CheckoutState) : CheckoutState :=
  { st with cartItems := [], shippingRate := none, pickupLocId := "" }

/-- The `createOrder` request body built at checkout page lines 292-296. -/
def buildCreateOrderReq (st : CheckoutState) : CreateOrderReq :=
  { fulfillment := st.fulfillment
    shippingAddrId :=
      if st.fulfillment = Fulfillment.SHIPPING then some st.shippingAddrId else none
    pickupLocId :=
      if st.fulfillment = Fulfillment.PICKUP then some st.pickupLocId else none }

def paymentFailedText (orderId : String) : String :=
  "Order was created (" ++ orderId ++
    ") but payment step failed. Please open Orders and retry payment."

/-- The `try { ... } catch { ... }` body of `onPlaceOrder` (lines 286-333),
entered after all precondition checks passed.  `st0` reflects
`setError(null); setMessage(null)` at the start of the submit. -/
def placeOrderBody (env : CheckoutEnv) (st : CheckoutState) : PlaceOrderResult :=
  let st0 : CheckoutState := { st with error := none, message := none }
  let req := buildCreateOrderReq st
  match env.createOrder req with
  | .error e =>
    -- catch with `createdOrderId === null`
    { state := { st0 with error := some (getReadableApiMessage e "Failed to place order.") }
      calls := [NetCall.createOrderCall req]
      nav := NavAction.stay }
  | .ok order =>
    if order.currency = "USD" then
      match env.stripeCheckout order.id with
      | .error _ =>
        -- catch with `createdOrderId` set: clear cart, surface the order id
        { state := { clearCheckoutCartState st0 with
                       error := some (paymentFailedText order.id) }
          calls := [NetCall.createOrderCall req, NetCall.stripeCall order.id]
          nav := NavAction.stay }
      | .ok (some url) =>
        -- `window.location.href = checkout.url; return;` (cart NOT cleared)
        { state := st0
          calls := [NetCall.createOrderCall req, NetCall.stripeCall order.id]
          nav := NavAction.externalRedirect url }
      | .ok none =>
        { state := { clearCheckoutCartState st0 with
                       message := some "Order created. Stripe checkout session created." }
          calls := [NetCall.createOrderCall req, NetCall.stripeCall order.id]
          nav := NavAction.stay }
    else
      let payCall :=
        if st.mmkProvider = MmkProvider.WAVE then NetCall.waveCall order.id
        else NetCall.kbzpayCall order.id
      let payRes :=
        if st.mmkProvider = MmkProvider.WAVE then env.waveCheckout order.id
        else env.kbzpayCheckout order.id
      match payRes with
      | .error _ =>
        { state := { clearCheckoutCartState st0 with
                       error := some (paymentFailedText order.id) }
          calls := [NetCall.createOrderCall req, payCall]
          nav := NavAction.stay }
      | .ok _ =>
        { state := { clearCheckoutCartState st0 with
                       message := some "Order paid successfully." }
          calls := [NetCall.createOrderCall req, payCall]
          nav := NavAction.pushOrders }

/-- Source test `!shippingRate?.available` is falsy when the rate is absent. -/
def rateAvailable (st : CheckoutState) : Bool :=
  match st.shippingRate with
  | some r => r.available
  | none => false

/-- Function `onPlaceOrder()` (checkout page lines 263-334). -/
def onPlaceOrder (env : CheckoutEnv) (st : CheckoutState) : PlaceOrderResult :=
  match st.accessToken with
  | none => { state := st, calls := [], nav := NavAction.stay }
  | some _ =>
    if st.cartItems.length = 0 then
      { state := { st with error := some "Cart is empty." }, calls := [], nav := NavAction.stay }
    else
      match st.fulfillment with
      | Fulfillment.SHIPPING =>
        if st.shippingAddrId = "" then
          { state := { st with error := some "Please select shipping address." }
            calls := [], nav := NavAction.stay }
        else if !(rateAvailable st) then
          { state := { st with error := some "Shipping unavailable for selected country." }
            calls := [], nav := NavAction.stay }
        else placeOrderBody env st
      | Fulfillment.PICKUP =>
        if st.pickupLocId = "" then
          { state := { st with error := some "Please select pickup location." }
            calls := [], nav := NavAction.stay }
        else placeOrderBody env st

/-- The preconditions of `onPlaceOrder` that guard the network section. -/
def checkoutPrecondsPass (st : CheckoutState) : Bool :=
  st.cartItems.length ≠ 0 &&
    (match st.fulfillment with
     | Fulfillment.SHIPPING => st.shippingAddrId ≠ "" && rateAvailable st
     | Fulfillment.PICKUP => st.pickupLocId ≠ "")

/-- Whether the payment step taken for `order` by `onPlaceOrder` throws. -/
def paymentStepFails (env : CheckoutEnv) (st : CheckoutState) (order : OrderRes) : Bool :=
  if order.currency = "USD" then
    match env.stripeCheckout order.id with
    | .error _ => true
    | .ok _ => false
  else
    match (if st.mmkProvider = MmkProvider.WAVE then env.waveCheckout order.id
           else env.kbzpayCheckout order.id) with
    | .error _ => true
    | .ok _ => false

/-- C2: `onPlaceOrder` checks its preconditions in the fixed order cart
non-empty, then fulfillment-specific selection, then (if SHIPPING) rate
availability; the first failing check wins (an empty cart always yields the
empty-cart reason), each failure carries its own distinct reason, and every
precondition failure issues zero network calls. -/
theorem checkout_precondition_order (env : CheckoutEnv) (st : CheckoutState) (tok : String)
    (htok : st.accessToken = some tok) :
    (st.cartItems = [] →
      (onPlaceOrder env st).state.error = some "Cart is empty."
      ∧ (onPlaceOrder env st).calls = [])
    ∧ (st.cartItems ≠ [] → st.fulfillment = Fulfillment.SHIPPING →
        st.shippingAddrId = "" →
      (onPlaceOrder env st).state.error = some "Please select shipping address."
      ∧ (onPlaceOrder env st).calls = [])
    ∧ (st.cartItems ≠ [] → st.fulfillment = Fulfillment.SHIPPING →
        st.shippingAddrId ≠ "" → rateAvailable st = false →
      (onPlaceOrder env st).state.error = some "Shipping unavailable for selected country."
      ∧ (onPlaceOrder env st).calls = [])
    ∧ (st.cartItems ≠ [] → st.fulfillment = Fulfillment.PICKUP →
        st.pickupLocId = "" →
      (onPlaceOrder env st).state.error = some "Please select pickup location."
      ∧ (onPlaceOrder env st).calls = [])
    ∧ (checkoutPrecondsPass st = false → (onPlaceOrder env st).calls = [])
    ∧ List.Nodup ["Cart is empty.", "Please select shipping address.",
        "Shipping unavailable for selected country.", "Please select pickup location."] := by
  refine ⟨?_, ?_, ?_, ?_, ?_, by decide⟩
  · intro hempty
    simp [onPlaceOrder, htok, hempty]
  · intro hne hf haddr
    have hlen : ¬ st.cartItems.length = 0 := by simpa using hne
    simp [onPlaceOrder, htok, hlen, hf, haddr]
  · intro hne hf haddr hrate
    have hlen : ¬ st.cartItems.length = 0 := by simpa using hne
    simp [onPlaceOrder, htok, hlen, hf, haddr, hrate]
  · intro hne hf hloc
    have hlen : ¬ st.cartItems.length = 0 := by simpa using hne
    simp [onPlaceOrder, htok, hlen, hf, hloc]
  · intro hfail
    by_cases hlen : st.cartItems.length = 0
    · simp [onPlaceOrder, htok, hlen]
    · cases hf : st.fulfillment with
      | SHIPPING =>
        by_cases haddr : st.shippingAddrId = ""
        · simp [onPlaceOrder, htok, hlen, hf, haddr]
        · by_cases hrate : rateAvailable st = true
          · exfalso
            simp [checkoutPrecondsPass, hlen, hf, haddr, hrate] at hfail
          · simp [onPlaceOrder, htok, hlen, hf, haddr,
              Bool.not_eq_true _ ▸ hrate, Bool.eq_false_iff.mpr hrate]
      | PICKUP =>
        by_cases hloc : st.pickupLocId = ""
        · simp [onPlaceOrder, htok, hlen, hf, hloc]
        · exfalso
          simp [checkoutPrecondsPass, hlen, hf, hloc] at hfail

/-- Witness for `checkout_precondition_order`: a concrete state with an empty
cart, SHIPPING fulfillment, no selected address and no rate — the empty-cart
reason wins and no network call is made. -/
theorem checkout_precondition_order_witness :
    ((onPlaceOrder
        { createOrder := fun _ => Except.error "unreachable"
          stripeCheckout := fun _ => Except.error "unreachable"
          waveCheckout := fun _ => Except.error "unreachable"
          kbzpayCheckout := fun _ => Except.error "unreachable" }
        { accessToken := some "tok", cartItems := []
          fulfillment := Fulfillment.SHIPPING, shippingAddrId := ""
          pickupLocId := "", shippingRate := none
          mmkProvider := MmkProvider.WAVE, error := none, message := none }).state.error
      = some "Cart is empty.")
    ∧ ((onPlaceOrder
        { createOrder := fun _ => Except.error "unreachable"
          stripeCheckout := fun _ => Except.error "unreachable"
          waveCheckout := fun _ => Except.error "unreachable"
          kbzpayCheckout := fun _ => Except.error "unreachable" }
        { accessToken := some "tok", cartItems := []
          fulfillment := Fulfillment.SHIPPING, shippingAddrId := ""
          pickupLocId := "", shippingRate := none
          mmkProvider := MmkProvider.WAVE, error := none, message := none }).calls = []) :=
  (checkout_precondition_order _ _ "tok" rfl).1 rfl

theorem onPlaceOrder_eq_body (env : CheckoutEnv) (st : CheckoutState) (tok : String)
    (htok : st.accessToken = some tok) (hpre : checkoutPrecondsPass st = true) :
    onPlaceOrder env st = placeOrderBody env st := by
  unfold checkoutPrecondsPass at hpre
  cases hf : st.fulfillment with
  | SHIPPING =>
    rw [hf] at hpre
    simp only [Bool.and_eq_true, decide_eq_true_eq, ne_eq] at hpre
    simp [onPlaceOrder, htok, hpre.1, hf, hpre.2.1, hpre.2.2]
  | PICKUP =>
    rw [hf] at hpre
    simp only [Bool.and_eq_true, decide_eq_true_eq, ne_eq] at hpre
    simp [onPlaceOrder, htok, hpre.1, hf, hpre.2]

/-- C1: when the preconditions pass, `createOrder` succeeds and the subsequent
payment call throws, `onPlaceOrder` surfaces the created order's id inside a
payment-retry instruction and clears the local cart state (`cartItems`,
`shippingRate`, `pickupLocId`). -/
theorem checkout_payment_failure_keeps_order_id (env : CheckoutEnv) (st : CheckoutState)
    (tok : String) (order : OrderRes)
    (htok : st.accessToken = some tok)
    (hpre : checkoutPrecondsPass st = true)
    (hord : env.createOrder (buildCreateOrderReq st) = Except.ok order)
    (hpay : paymentStepFails env st order = true) :
    (onPlaceOrder env st).state.error =
      some ("Order was created (" ++ order.id ++
        ") but payment step failed. Please open Orders and retry payment.")
    ∧ (onPlaceOrder env st).state.cartItems = []
    ∧ (onPlaceOrder env st).state.shippingRate = none
    ∧ (onPlaceOrder env st).state.pickupLocId = "" := by
  rw [onPlaceOrder_eq_body env st tok htok hpre]
  unfold paymentStepFails at hpay
  by_cases hc : order.currency = "USD"
  · rw [if_pos hc] at hpay
    cases hstripe : env.stripeCheckout order.id with
    | error e =>
      simp [placeOrderBody, hord, hc, hstripe, clearCheckoutCartState, paymentFailedText]
    | ok u => rw [hstripe] at hpay; simp at hpay
  · rw [if_neg hc] at hpay
    cases hm : st.mmkProvider with
    | WAVE =>
      rw [hm] at hpay
      simp only [reduceIte] at hpay
      cases hw : env.waveCheckout order.id with
      | error e =>
        simp [placeOrderBody, hord, hc, hm, hw, clearCheckoutCartState, paymentFailedText]
      | ok u => rw [hw] at hpay; simp at hpay
    | KBZPAY =>
      rw [hm] at hpay
      simp only [reduceCtorEq, reduceIte] at hpay
      cases hk : env.kbzpayCheckout order.id with
      | error e =>
        simp [placeOrderBody, hord, hc, hm, hk, clearCheckoutCartState, paymentFailedText]
      | ok u => rw [hk] at hpay; simp at hpay

/-- Witness for `checkout_payment_failure_keeps_order_id`: a one-item MMK cart
with a pickup location; `createOrder` returns order `"o_1"` and the WAVE
payment call throws — the terminal error names `"o_1"` and the cart is
cleared. -/
theorem checkout_payment_failure_witness :
    ((onPlaceOrder
        { createOrder := fun _ => Except.ok { id := "o_1", currency := "MMK" }
          stripeCheckout := fun _ => Except.ok none
          waveCheckout := fun _ => Except.error "payment gateway down"
          kbzpayCheckout := fun _ => Except.ok () }
        { accessToken := some "tok"
          cartItems := [{ id := "ci1", qty := 1, unitPrice := 5000, variantCurrency := "MMK" }]
          fulfillment := Fulfillment.PICKUP, shippingAddrId := ""
          pickupLocId := "pl1", shippingRate := none
          mmkProvider := MmkProvider.WAVE, error := none, message := none }).state.error
      = some ("Order was created (" ++ "o_1" ++
          ") but payment step failed. Please open Orders and retry payment."))
    ∧ ((onPlaceOrder
        { createOrder := fun _ => Except.ok { id := "o_1", currency := "MMK" }
          stripeCheckout := fun _ => Except.ok none
          waveCheckout := fun _ => Except.error "payment gateway down"
          kbzpayCheckout := fun _ => Except.ok () }
        { accessToken := some "tok"
          cartItems := [{ id := "ci1", qty := 1, unitPrice := 5000, variantCurrency := "MMK" }]
          fulfillment := Fulfillment.PICKUP, shippingAddrId := ""
          pickupLocId := "pl1", shippingRate := none
          mmkProvider := MmkProvider.WAVE, error := none, message := none }).state.cartItems
      = []) := by
  have h := checkout_payment_failure_keeps_order_id
    { createOrder := fun _ => Except.ok { id := "o_1", currency := "MMK" }
      stripeCheckout := fun _ => Except.ok none
      waveCheckout := fun _ => Except.error "payment gateway down"
      kbzpayCheckout := fun _ => Except.ok () }
    { accessToken := some "tok"
      cartItems := [{ id := "ci1", qty := 1, unitPrice := 5000, variantCurrency := "MMK" }]
      fulfillment := Fulfillment.PICKUP, shippingAddrId := ""
      pickupLocId := "pl1", shippingRate := none
      mmkProvider := MmkProvider.WAVE, error := none, message := none }
    "tok" { id := "o_1", currency := "MMK" } rfl (by decide) rfl rfl
  exact ⟨h.1, h.2.1⟩

theorem createOrderCall_mem_body (env : CheckoutEnv) (st : CheckoutState)
    (req : CreateOrderReq)
    (h : NetCall.createOrderCall req ∈ (placeOrderBody env st).calls) :
    req = buildCreateOrderReq st := by
  cases ho : env.createOrder (buildCreateOrderReq st) with
  | error e =>
    simpa [placeOrderBody, ho] using h
  | ok order =>
    by_cases hc : order.currency = "USD"
    · cases hstripe : env.stripeCheckout order.id with
      | error e => simpa [placeOrderBody, ho, hc, hstripe] using h
      | ok u =>
        cases u with
        | none => simpa [placeOrderBody, ho, hc, hstripe] using h
        | some url => simpa [placeOrderBody, ho, hc, hstripe] using h
    · cases hm : st.mmkProvider with
      | WAVE =>
        cases hw : env.waveCheckout order.id with
        | error e => simpa [placeOrderBody, ho, hc, hm, hw] using h
        | ok u => simpa [placeOrderBody, ho, hc, hm, hw] using h
      | KBZPAY =>
        cases hk : env.kbzpayCheckout order.id with
        | error e => simpa [placeOrderBody, ho, hc, hm, hk] using h
        | ok u => simpa [placeOrderBody, ho, hc, hm, hk] using h

/-- C10: every `createOrder` request issued by `onPlaceOrder` carries exactly
one fulfillment selector — `shippingAddrId` and no `pickupLocId` for SHIPPING,
`pickupLocId` and no `shippingAddrId` for PICKUP; never both, never
neither. -/
theorem createOrder_request_single_selector (env : CheckoutEnv) (st : CheckoutState)
    (req : CreateOrderReq)
    (h : NetCall.createOrderCall req ∈ (onPlaceOrder env st).calls) :
    ((st.fulfillment = Fulfillment.SHIPPING ∧ req.shippingAddrId = some st.shippingAddrId
        ∧ req.pickupLocId = none)
      ∨ (st.fulfillment = Fulfillment.PICKUP ∧ req.shippingAddrId = none
        ∧ req.pickupLocId = some st.pickupLocId))
    ∧ (req.shippingAddrId.isSome ↔ ¬ req.pickupLocId.isSome) := by
  have hreq : req = buildCreateOrderReq st := by
    rcases hs : st.accessToken with _ | tok
    · simp [onPlaceOrder, hs] at h
    · by_cases hlen : st.cartItems.length = 0
      · simp [onPlaceOrder, hs, hlen] at h
      · cases hf : st.fulfillment with
        | SHIPPING =>
          by_cases haddr : st.shippingAddrId = ""
          · simp [onPlaceOrder, hs, hlen, hf, haddr] at h
          · by_cases hrate : rateAvailable st = true
            · have hb : onPlaceOrder env st = placeOrderBody env st := by
                simp [onPlaceOrder, hs, hlen, hf, haddr, hrate]
              rw [hb] at h
              exact createOrderCall_mem_body env st req h
            · have hrf : rateAvailable st = false := by
                simpa using hrate
              simp [onPlaceOrder, hs, hlen, hf, haddr, hrf] at h
        | PICKUP =>
          by_cases hloc : st.pickupLocId = ""
          · simp [onPlaceOrder, hs, hlen, hf, hloc] at h
          · have hb : onPlaceOrder env st = placeOrderBody env st := by
              simp [onPlaceOrder, hs, hlen, hf, hloc]
            rw [hb] at h
            exact createOrderCall_mem_body env st req h
  subst hreq
  cases hf : st.fulfillment with
  | SHIPPING => simp [buildCreateOrderReq, hf]
  | PICKUP => simp [buildCreateOrderReq, hf]

/-- Witness for `createOrder_request_single_selector`: the SHIPPING submit of
a one-item cart issues a request with `shippingAddrId = some "a1"` and no
`pickupLocId`. -/
theorem createOrder_request_single_selector_witness :
    NetCall.createOrderCall { fulfillment := Fulfillment.SHIPPING
                              shippingAddrId := some "a1", pickupLocId := none } ∈
      (onPlaceOrder
        { createOrder := fun _ => Except.ok { id := "o_2", currency := "USD" }
          stripeCheckout := fun _ => Except.ok (some "https://pay.example/session")
          waveCheckout := fun _ => Except.ok ()
          kbzpayCheckout := fun _ => Except.ok () }
        { accessToken := some "tok"
          cartItems := [{ id := "ci1", qty := 2, unitPrice := 700, variantCurrency := "USD" }]
          fulfillment := Fulfillment.SHIPPING, shippingAddrId := "a1"
          pickupLocId := "", shippingRate := some { available := true, flatRate := some 500, currency := "USD" }
          mmkProvider := MmkProvider.WAVE, error := none, message := none }).calls
    ∧ (({ fulfillment := Fulfillment.SHIPPING
          shippingAddrId := some "a1", pickupLocId := none } : CreateOrderReq).shippingAddrId.isSome
        ↔ ¬ ({ fulfillment := Fulfillment.SHIPPING
               shippingAddrId := some "a1", pickupLocId := none } : CreateOrderReq).pickupLocId.isSome) := by
  refine ⟨by decide, ?_⟩
  exact (createOrder_request_single_selector
    { createOrder := fun _ => Except.ok { id := "o_2", currency := "USD" }
      stripeCheckout := fun _ => Except.ok (some "https://pay.example/session")
      waveCheckout := fun _ => Except.ok ()
      kbzpayCheckout := fun _ => Except.ok () }
    { accessToken := some "tok"
      cartItems := [{ id := "ci1", qty := 2, unitPrice := 700, variantCurrency := "USD" }]
      fulfillment := Fulfillment.SHIPPING, shippingAddrId := "a1"
      pickupLocId := "", shippingRate := some { available := true, flatRate := some 500, currency := "USD" }
      mmkProvider := MmkProvider.WAVE, error := none, message := none }
    { fulfillment := Fulfillment.SHIPPING, shippingAddrId := some "a1", pickupLocId := none }
    (by decide)).2

/-! ## Thread Sync Engine (use-order-chat-realtime.ts and the chat page)

A thread's message state is the `messages` array of `useOrderChatRealtime`.
Three code paths write to it:

  * `handleMessage` (hook lines 38-48): realtime push, appended iff the id is
    not already present, filtered by `payload.orderId !== orderId`;
  * `loadMessages` (chat page lines 194-216): REST history, `setMessages`
    REPLACES the state with the reversed (descending → chronological) payload;
  * `onSend` (chat page lines 305-328): REST send confirmation, appended iff
    the id is not already present.

`createdAt` is an ISO timestamp string in the source; its lexicographic order
is chronological, so it is embedded as `Nat`. -/

structure ChatMessage where
  id : String
  threadId : String
  senderUserId : String
  body : String
  createdAt : Nat
deriving DecidableEq, Repr

inductive ChatDelivery where
  /-- Event `chat:message` realtime push (`handleMessage`). -/
  | push (orderId : String) (m : ChatMessage)
  /-- REST history response (`loadMessages` success), most-recent-first. -/
  | history (items : List ChatMessage)
  /-- REST send confirmation (`onSend` success). -/
  | sendConfirm (m : ChatMessage)
deriving DecidableEq, Repr

def hasMsgId (msgs : List ChatMessage) (i : String) : Bool :=
  msgs.any (fun x => x.id = i)

def applyDelivery (activeOrderId : String) (msgs : List ChatMessage) :
    ChatDelivery → List ChatMessage
  | .push oid m =>
    if oid = activeOrderId then
      if hasMsgId msgs m.id then msgs else msgs ++ [m]
    else msgs
  | .history items => items.reverse
  | .sendConfirm m => if hasMsgId msgs m.id then msgs else msgs ++ [m]

def applyDeliveries (aid : String) (msgs : List ChatMessage) :
    List ChatDelivery → List ChatMessage
  | [] => msgs
  | d :: ds => applyDeliveries aid (applyDelivery aid msgs d) ds

/-- Each message id occurs at most once. -/
def idsNodup : List ChatMessage → Bool
  | [] => true
  | m :: rest => !(hasMsgId rest m.id) && idsNodup rest

/-- Ascending `createdAt`. -/
def sortedByCreatedAt : List ChatMessage → Bool
  | [] => true
  | [_] => true
  | a :: b :: rest => decide (a.createdAt ≤ b.createdAt) && sortedByCreatedAt (b :: rest)

/-- A delivery arrives "in order": an appended message is no older than
anything already displayed, and a history payload is chronological once
reversed. -/
def inOrderDelivery (aid : String) (msgs : List ChatMessage) : ChatDelivery → Bool
  | .push oid m =>
    if oid = aid then msgs.all (fun x => x.createdAt ≤ m.createdAt) else true
  | .history items => sortedByCreatedAt items.reverse
  | .sendConfirm m => msgs.all (fun x => x.createdAt ≤ m.createdAt)

def inOrderDeliveries (aid : String) (msgs : List ChatMessage) :
    List ChatDelivery → Bool
  | [] => true
  | d :: ds =>
    inOrderDelivery aid msgs d && inOrderDeliveries aid (applyDelivery aid msgs d) ds

/-- Every history payload in the sequence carries pairwise-distinct ids (a
server guarantee for a thread's message log). -/
def historiesNodup : List ChatDelivery → Bool
  | [] => true
  | .history items :: ds => idsNodup items && historiesNodup ds
  | .push _ _ :: ds => historiesNodup ds
  | .sendConfirm _ :: ds => historiesNodup ds

theorem hasMsgId_iff (msgs : List ChatMessage) (i : String) :
    hasMsgId msgs i = true ↔ i ∈ msgs.map (fun x => x.id) := by
  simp [hasMsgId, List.any_eq_true, decide_eq_true_eq, List.mem_map]

theorem idsNodup_iff (msgs : List ChatMessage) :
    idsNodup msgs = true ↔ (msgs.map (fun x => x.id)).Nodup := by
  induction msgs with
  | nil => simp [idsNodup]
  | cons m rest ih =>
    simp only [idsNodup, Bool.and_eq_true, Bool.not_eq_true', List.map_cons,
      List.nodup_cons, ih]
    constructor
    · rintro ⟨h1, h2⟩
      refine ⟨fun hmem => ?_, h2⟩
      rw [← hasMsgId_iff] at hmem
      rw [h1] at hmem
      exact Bool.false_ne_true hmem
    · rintro ⟨h1, h2⟩
      refine ⟨?_, h2⟩
      by_cases hh : hasMsgId rest m.id = true
      · exact absurd ((hasMsgId_iff _ _).mp hh) h1
      · exact Bool.eq_false_iff.mpr hh

theorem idsNodup_reverse (msgs : List ChatMessage) :
    idsNodup msgs.reverse = idsNodup msgs := by
  by_cases h : idsNodup msgs = true
  · rw [h, idsNodup_iff, List.map_reverse, List.nodup_reverse, ← idsNodup_iff, h]
  · rw [Bool.eq_false_iff.mpr h]
    rw [Bool.eq_false_iff]
    intro hcon
    rw [idsNodup_iff, List.map_reverse, List.nodup_reverse, ← idsNodup_iff] at hcon
    exact h hcon

theorem idsNodup_append_new (msgs : List ChatMessage) (m : ChatMessage)
    (h : idsNodup msgs = true) (hm : hasMsgId msgs m.id = false) :
    idsNodup (msgs ++ [m]) = true := by
  rw [idsNodup_iff] at h ⊢
  rw [List.map_append]
  refine List.Nodup.append h (by simp) ?_
  intro a ha hb
  simp at hb
  subst hb
  rw [← hasMsgId_iff] at ha
  rw [ha] at hm
  simp at hm

theorem sorted_append_one (msgs : List ChatMessage) (m : ChatMessage)
    (h : sortedByCreatedAt msgs = true)
    (hall : msgs.all (fun x => x.createdAt ≤ m.createdAt) = true) :
    sortedByCreatedAt (msgs ++ [m]) = true := by
  induction msgs with
  | nil => simp [sortedByCreatedAt]
  | cons a rest ih =>
    cases rest with
    | nil =>
      simp [List.all_eq_true, decide_eq_true_eq] at hall
      simp [sortedByCreatedAt, hall]
    | cons b rest2 =>
      simp only [sortedByCreatedAt, Bool.and_eq_true, decide_eq_true_eq] at h
      have hall' : (b :: rest2).all (fun x => x.createdAt ≤ m.createdAt) = true := by
        rw [List.all_eq_true] at hall ⊢
        exact fun x hx => hall x (List.mem_cons_of_mem a hx)
      have := ih h.2 hall'
      simp only [List.cons_append, sortedByCreatedAt, Bool.and_eq_true, decide_eq_true_eq]
      exact ⟨h.1, by simpa using this⟩

theorem idsNodup_applyDelivery (aid : String) (msgs : List ChatMessage) (d : ChatDelivery)
    (h : idsNodup msgs = true)
    (hd : ∀ items, d = ChatDelivery.history items → idsNodup items = true) :
    idsNodup (applyDelivery aid msgs d) = true := by
  cases d with
  | push oid m =>
    by_cases ho : oid = aid
    · by_cases hm : hasMsgId msgs m.id = true
      · simpa [applyDelivery, ho, hm] using h
      · have hmf : hasMsgId msgs m.id = false := Bool.eq_false_iff.mpr hm
        have heq : applyDelivery aid msgs (ChatDelivery.push oid m) = msgs ++ [m] := by
          simp [applyDelivery, ho, hmf]
        rw [heq]
        exact idsNodup_append_new msgs m h hmf
    · simpa [applyDelivery, ho] using h
  | history items =>
    have hi := hd items rfl
    simpa [applyDelivery, idsNodup_reverse] using hi
  | sendConfirm m =>
    by_cases hm : hasMsgId msgs m.id = true
    · simpa [applyDelivery, hm] using h
    · have hmf : hasMsgId msgs m.id = false := Bool.eq_false_iff.mpr hm
      have heq : applyDelivery aid msgs (ChatDelivery.sendConfirm m) = msgs ++ [m] := by
        simp [applyDelivery, hmf]
      rw [heq]
      exact idsNodup_append_new msgs m h hmf

theorem sorted_applyDelivery (aid : String) (msgs : List ChatMessage) (d : ChatDelivery)
    (h : sortedByCreatedAt msgs = true)
    (hd : inOrderDelivery aid msgs d = true) :
    sortedByCreatedAt (applyDelivery aid msgs d) = true := by
  cases d with
  | push oid m =>
    by_cases ho : oid = aid
    · by_cases hm : hasMsgId msgs m.id = true
      · simpa [applyDelivery, ho, hm] using h
      · have hmf : hasMsgId msgs m.id = false := Bool.eq_false_iff.mpr hm
        have heq : applyDelivery aid msgs (ChatDelivery.push oid m) = msgs ++ [m] := by
          simp [applyDelivery, ho, hmf]
        rw [heq]
        exact sorted_append_one msgs m h (by simpa [inOrderDelivery, ho] using hd)
    · simpa [applyDelivery, ho] using h
  | history items =>
    simpa [applyDelivery] using (by simpa [inOrderDelivery] using hd :
      sortedByCreatedAt items.reverse = true)
  | sendConfirm m =>
    by_cases hm : hasMsgId msgs m.id = true
    · simpa [applyDelivery, hm] using h
    · have hmf : hasMsgId msgs m.id = false := Bool.eq_false_iff.mpr hm
      have heq : applyDelivery aid msgs (ChatDelivery.sendConfirm m) = msgs ++ [m] := by
        simp [applyDelivery, hmf]
      rw [heq]
      exact sorted_append_one msgs m h (by simpa [inOrderDelivery] using hd)

theorem historiesNodup_cons (d : ChatDelivery) (ds : List ChatDelivery)
    (h : historiesNodup (d :: ds) = true) :
    (∀ items, d = ChatDelivery.history items → idsNodup items = true)
    ∧ historiesNodup ds = true := by
  cases d with
  | history items =>
    simp only [historiesNodup, Bool.and_eq_true] at h
    refine ⟨fun its hh => ?_, h.2⟩
    injection hh with h'
    subst h'
    exact h.1
  | push oid m =>
    exact ⟨fun items hh => by simp at hh, by simpa [historiesNodup] using h⟩
  | sendConfirm m =>
    exact ⟨fun items hh => by simp at hh, by simpa [historiesNodup] using h⟩

theorem chatMerge_invariant (aid : String) (ds : List ChatDelivery) :
    ∀ msgs, idsNodup msgs = true → historiesNodup ds = true →
      idsNodup (applyDeliveries aid msgs ds) = true
      ∧ (sortedByCreatedAt msgs = true → inOrderDeliveries aid msgs ds = true →
          sortedByCreatedAt (applyDeliveries aid msgs ds) = true) := by
  induction ds with
  | nil => exact fun msgs h1 _ => ⟨h1, fun hs _ => hs⟩
  | cons d rest ih =>
    intro msgs h1 h2
    obtain ⟨hdn, hrest⟩ := historiesNodup_cons d rest h2
    have hstep := idsNodup_applyDelivery aid msgs d h1 hdn
    obtain ⟨ha, hb⟩ := ih (applyDelivery aid msgs d) hstep hrest
    refine ⟨ha, fun hs hio => ?_⟩
    have hio' : inOrderDelivery aid msgs d = true
        ∧ inOrderDeliveries aid (applyDelivery aid msgs d) rest = true := by
      simpa [inOrderDeliveries, Bool.and_eq_true] using hio
    exact hb (sorted_applyDelivery aid msgs d hs hio'.1) hio'.2

/-- Concrete messages for exercising the thread merge. -/
def msgT1 : ChatMessage :=
  { id := "m1", threadId := "t1", senderUserId := "u2", body := "earlier", createdAt := 1 }

def msgT2 : ChatMessage :=
  { id := "m2", threadId := "t1", senderUserId := "u1", body := "later", createdAt := 2 }

def msgT3 : ChatMessage :=
  { id := "m3", threadId := "t1", senderUserId := "u1", body := "latest", createdAt := 3 }

/-- C4 counterexample: two `chat:message` pushes arriving in descending
`createdAt` order are appended in arrival order, so the resulting sequence has
each id exactly once but is NOT in ascending `createdAt` order — refuting the
claim for arbitrary interleavings. -/
theorem chat_thread_merge_cex :
    idsNodup (applyDeliveries "o1" []
      [ChatDelivery.push "o1" msgT2, ChatDelivery.push "o1" msgT1]) = true
    ∧ sortedByCreatedAt (applyDeliveries "o1" []
      [ChatDelivery.push "o1" msgT2, ChatDelivery.push "o1" msgT1]) = false := by
  decide

/-- C4 (amended): over any interleaving of REST-history replacements,
realtime pushes and send confirmations whose history payloads carry distinct
ids, the thread state holds each message id exactly once; and it is in
ascending `createdAt` order whenever the deliveries themselves arrive in
order (each append no older than the current tail, histories chronological
once reversed) — but not for arbitrary arrival orders. -/
theorem chat_thread_merge_unique_and_sorted (aid : String) (msgs : List ChatMessage)
    (ds : List ChatDelivery)
    (h1 : idsNodup msgs = true) (h2 : historiesNodup ds = true) :
    idsNodup (applyDeliveries aid msgs ds) = true
    ∧ (sortedByCreatedAt msgs = true → inOrderDeliveries aid msgs ds = true →
        sortedByCreatedAt (applyDeliveries aid msgs ds) = true) :=
  chatMerge_invariant aid ds msgs h1 h2

/-- Witness for `chat_thread_merge_unique_and_sorted`: Scenario B — a history
payload `[m2, m1]` (most-recent-first) followed by an in-order push of `m3`
and a duplicate push of `m3` yields `[m1, m2, m3]`: each id once, ascending
`createdAt`. -/
theorem chat_thread_merge_unique_and_sorted_witness :
    idsNodup (applyDeliveries "o1" []
      [ChatDelivery.history [msgT2, msgT1],
       ChatDelivery.push "o1" msgT3, ChatDelivery.push "o1" msgT3]) = true
    ∧ sortedByCreatedAt (applyDeliveries "o1" []
      [ChatDelivery.history [msgT2, msgT1],
       ChatDelivery.push "o1" msgT3, ChatDelivery.push "o1" msgT3]) = true := by
  have h := chat_thread_merge_unique_and_sorted "o1" []
    [ChatDelivery.history [msgT2, msgT1],
     ChatDelivery.push "o1" msgT3, ChatDelivery.push "o1" msgT3]
    (by decide) (by decide)
  exact ⟨h.1, h.2 (by decide) (by decide)⟩

/-! ## Chat page history fetch (`loadMessages`, chat page lines 194-216)

`loadMessages` awaits `listChatMessages`, reverses the payload into
chronological order, writes it with `setMessages`, and marks the newest
message read; its `catch` block runs `setError('Failed to load messages.')`
AND `setMessages([])`.  The `markChatRead` call sits inside the same `try`,
so its failure takes the same catch path. -/

structure ChatPageMsgState where
  messages : List ChatMessage
  error : Option String
deriving DecidableEq, Repr

/-- Both outcomes overwrite the prior state `_st` wholesale — which is
exactly the behaviour at issue in the failure case. -/
def loadMessagesRun (fetchRes : Except Unit (List ChatMessage))
    (markReadRes : Except Unit Unit) (_st : ChatPageMsgState) : ChatPageMsgState :=
  match fetchRes with
  | .error _ => { messages := [], error := some "Failed to load messages." }
  | .ok items =>
    let ordered := items.reverse
    -- `markChatRead` is awaited only when the history is non-empty
    match (if ordered.isEmpty then Except.ok () else markReadRes) with
    | .error _ => { messages := [], error := some "Failed to load messages." }
    | .ok _ => { messages := ordered, error := none }

/-- C8 counterexample: with messages `[msgT1]` already loaded, a failing
history fetch clears the message state to `[]` instead of leaving it intact —
`setMessages([])` in the catch block is a destructive clear. -/
theorem loadMessages_error_clears_cex :
    (loadMessagesRun (Except.error ()) (Except.ok ())
        { messages := [msgT1], error := none }).messages = []
    ∧ ({ messages := [msgT1], error := none } : ChatPageMsgState).messages ≠ [] := by
  decide

/-- C8 (amended): a failing history fetch is reported (`error` becomes
`"Failed to load messages."`) and the message state is reset to the empty
list — already-loaded messages are discarded, not left intact. -/
theorem loadMessages_error_reports_and_clears (mr : Except Unit Unit)
    (st : ChatPageMsgState) :
    loadMessagesRun (Except.error ()) mr st =
      { messages := [], error := some "Failed to load messages." } :=
  rfl

/-! ## Chat page thread switching (effect at chat page lines 283-289)

The effect `useEffect(() => { ...; loadMessages(accessToken, activeOrderId); },
[accessToken, activeOrderId, setMessages])` starts a history fetch whenever
the active thread changes, but — unlike every other effect in the same file —
carries no `alive` flag and no sequence token, so the continuation
`setMessages(ordered)` runs whenever its fetch resolves, even if another
thread has been opened meanwhile.  Pending fetches are modelled as a queue of
(orderId the fetch was issued for, payload the server will return). -/

structure ThreadViewState where
  activeOrderId : String
  messages : List ChatMessage
  pending : List (String × List ChatMessage)
deriving DecidableEq, Repr

inductive ThreadEvent where
  /-- the user opens a thread: `setActiveOrderId` + the effect fires
  `loadMessages`, enqueueing a fetch. -/
  | openThread (orderId : String) (serverItems : List ChatMessage)
  /-- the oldest in-flight history fetch resolves; its continuation runs
  `setMessages(response.items.reverse)` with no staleness check. -/
  | resolveOldest
deriving DecidableEq, Repr

def threadStep (st : ThreadViewState) : ThreadEvent → ThreadViewState
  | .openThread oid items =>
    { st with activeOrderId := oid, pending := st.pending ++ [(oid, items)] }
  | .resolveOldest =>
    match st.pending with
    | [] => st
    | (_, items) :: rest =>
      { st with messages := items.reverse, pending := rest }

def runThread (st : ThreadViewState) (evs : List ThreadEvent) : ThreadViewState :=
  evs.foldl threadStep st

/-- C7 (code bug): open thread `o1`, then open thread `o2` before `o1`'s
history fetch resolves; when `o1`'s fetch then resolves, its stale payload
`[msgT1]` (a message of thread `t1`/order `o1`) IS written into the message
state even though the view is on `o2` — the messages-load effect has no
sequence-token or alive-flag guard, so the stale response is applied, contrary
to the claim. -/
theorem stale_history_applied_to_new_thread :
    (runThread { activeOrderId := "", messages := [], pending := [] }
        [ThreadEvent.openThread "o1" [msgT1],
         ThreadEvent.openThread "o2" [msgT3],
         ThreadEvent.resolveOldest]).activeOrderId = "o2"
    ∧ (runThread { activeOrderId := "", messages := [], pending := [] }
        [ThreadEvent.openThread "o1" [msgT1],
         ThreadEvent.openThread "o2" [msgT3],
         ThreadEvent.resolveOldest]).messages = [msgT1] := by
  decide

/-! ## Read state (use-notifications-realtime.ts and use-order-chat-realtime.ts)

Notification inbox: `handleNewNotification` prepends iff the id is absent,
`handleRead` sets `readAt` on the matching item, `handleReadAll` sets `readAt`
only on items that do not already have one.  `readAt` is an ISO timestamp
string; embedded as `Nat` (lexicographic = chronological).

Chat read cursors: `handleRead` in the order-chat hook writes the named
participant's cursor unconditionally (`{ ...prev, [userId]: {...} }` — a
last-write-wins record update). -/

structure NotificationItem where
  id : String
  title : String
  body : String
  readAt : Option Nat
  createdAt : Nat
deriving DecidableEq, Repr

inductive NotifEvent where
  /-- Event `notifications:new` (`handleNewNotification`). -/
  | newNotif (n : NotificationItem)
  /-- Event `notifications:read` (`handleRead`, use-notifications-realtime lines 39-45). -/
  | readNotif (notificationId : String) (readAt : Nat)
  /-- Event `notifications:read-all` (`handleReadAll`, lines 46-50). -/
  | readAll (readAt : Nat)
deriving DecidableEq, Repr

def applyNotifEvent (ns : List NotificationItem) : NotifEvent → List NotificationItem
  | .newNotif n =>
    if ns.any (fun x => x.id = n.id) then ns else n :: ns
  | .readNotif nid t =>
    ns.map (fun x => if x.id = nid then { x with readAt := some t } else x)
  | .readAll t =>
    ns.map (fun x => if x.readAt.isSome then x else { x with readAt := some t })

def applyNotifEvents (ns : List NotificationItem) (evs : List NotifEvent) :
    List NotificationItem :=
  evs.foldl applyNotifEvent ns

def findNotif : List NotificationItem → String → Option NotificationItem
  | [], _ => none
  | n :: rest, i => if n.id = i then some n else findNotif rest i

structure ChatReadState where
  userId : String
  lastReadMessageId : String
  lastReadAt : Nat
deriving DecidableEq, Repr

structure ChatReadPayload where
  orderId : String
  userId : String
  lastReadMessageId : String
  lastReadAt : Nat
deriving DecidableEq, Repr

/-- Spread update (prev with key `k` bound to `v`) on a string-keyed record. -/
def recordSet (reads : List (String × ChatReadState)) (k : String) (v : ChatReadState) :
    List (String × ChatReadState) :=
  if reads.any (fun p => p.1 = k) then
    reads.map (fun p => if p.1 = k then (k, v) else p)
  else reads ++ [(k, v)]

/-- Handler `handleRead` of use-order-chat-realtime.ts (lines 49-66): filter by
orderId, then overwrite the named participant's cursor unconditionally. -/
def handleChatRead (activeOrderId : String) (reads : List (String × ChatReadState))
    (p : ChatReadPayload) : List (String × ChatReadState) :=
  if p.orderId = activeOrderId then
    recordSet reads p.userId
      { userId := p.userId, lastReadMessageId := p.lastReadMessageId
        lastReadAt := p.lastReadAt }
  else reads

def findRead : List (String × ChatReadState) → String → Option ChatReadState
  | [], _ => none
  | p :: rest, k => if p.1 = k then some p.2 else findRead rest k

theorem findRead_recordSet (reads : List (String × ChatReadState)) (k : String)
    (v : ChatReadState) : findRead (recordSet reads k v) k = some v := by
  unfold recordSet
  by_cases h : reads.any (fun p => p.1 = k) = true
  · rw [if_pos h]
    induction reads with
    | nil => simp at h
    | cons p rest ih =>
      by_cases hp : p.1 = k
      · simp [findRead, hp]
      · have h' : rest.any (fun q => q.1 = k) = true := by
          simp [List.any_eq_true, decide_eq_true_eq] at h ⊢
          rcases h with h | h
          · exact absurd h hp
          · exact h
        simpa [findRead, hp] using ih h'
  · rw [if_neg h]
    induction reads with
    | nil => simp [findRead]
    | cons p rest ih =>
      have hp : ¬ p.1 = k := by
        intro hk
        exact h (by simp [List.any_eq_true, decide_eq_true_eq, hk])
      have h' : ¬ rest.any (fun q => q.1 = k) = true := by
        intro hk
        refine h ?_
        simp [List.any_eq_true, decide_eq_true_eq] at hk ⊢
        exact Or.inr hk
      simpa [findRead, hp] using ih h'

theorem findNotif_map (f : NotificationItem → NotificationItem)
    (hf : ∀ x, (f x).id = x.id) (ns : List NotificationItem) (i : String) :
    findNotif (ns.map f) i = (findNotif ns i).map f := by
  induction ns with
  | nil => simp [findNotif]
  | cons q rest ih =>
    by_cases hq : q.id = i
    · simp [findNotif, hf, hq]
    · simp [findNotif, hf, hq, ih]

theorem any_of_findNotif (ns : List NotificationItem) (i : String)
    (n : NotificationItem) (h : findNotif ns i = some n) :
    ns.any (fun x => x.id = i) = true := by
  induction ns with
  | nil => simp [findNotif] at h
  | cons q rest ih =>
    by_cases hq : q.id = i
    · simp [List.any_cons, hq]
    · rw [findNotif, if_neg hq] at h
      simp only [List.any_cons, Bool.or_eq_true]
      exact Or.inr (ih h)

theorem notif_read_preserved_step (ns : List NotificationItem) (ev : NotifEvent)
    (i : String) (n : NotificationItem)
    (h : findNotif ns i = some n) (hr : n.readAt.isSome = true) :
    ∃ n', findNotif (applyNotifEvent ns ev) i = some n' ∧ n'.readAt.isSome = true := by
  cases ev with
  | newNotif m =>
    by_cases hm : ns.any (fun x => x.id = m.id) = true
    · exact ⟨n, by simpa [applyNotifEvent, hm] using h, hr⟩
    · have hmi : ¬ m.id = i := by
        intro he
        exact hm (he ▸ any_of_findNotif ns i n h)
      refine ⟨n, ?_, hr⟩
      have hred : applyNotifEvent ns (NotifEvent.newNotif m) = m :: ns := by
        simp [applyNotifEvent, hm]
      rw [hred, findNotif, if_neg hmi]
      exact h
  | readNotif nid t =>
    have hmap := findNotif_map (fun x => if x.id = nid then { x with readAt := some t } else x)
      (by intro x; by_cases hx : x.id = nid <;> simp [hx]) ns i
    refine ⟨if n.id = nid then { n with readAt := some t } else n, ?_, ?_⟩
    · show findNotif (ns.map _) i = _
      rw [hmap, h]
      rfl
    · by_cases hx : n.id = nid <;> simp [hx, hr]
  | readAll t =>
    have hmap := findNotif_map (fun x => if x.readAt.isSome then x else { x with readAt := some t })
      (by intro x; by_cases hx : x.readAt.isSome = true <;> simp [hx]) ns i
    refine ⟨if n.readAt.isSome then n else { n with readAt := some t }, ?_, ?_⟩
    · show findNotif (ns.map _) i = _
      rw [hmap, h]
      rfl
    · simp [hr]

theorem notif_read_preserved_events (evs : List NotifEvent) :
    ∀ ns i n, findNotif ns i = some n → n.readAt.isSome = true →
      ∃ n', findNotif (applyNotifEvents ns evs) i = some n'
        ∧ n'.readAt.isSome = true := by
  induction evs with
  | nil => exact fun ns i n h hr => ⟨n, h, hr⟩
  | cons ev rest ih =>
    intro ns i n h hr
    obtain ⟨n', hn', hr'⟩ := notif_read_preserved_step ns ev i n h hr
    exact ih (applyNotifEvent ns ev) i n' hn' hr'

def crpLate : ChatReadPayload :=
  { orderId := "o1", userId := "u", lastReadMessageId := "m5", lastReadAt := 5 }

def crpEarly : ChatReadPayload :=
  { orderId := "o1", userId := "u", lastReadMessageId := "m3", lastReadAt := 3 }

/-- C5 counterexample: the chat read-cursor handler is last-write-wins —
after a `chat:read` event with `lastReadAt = 5`, a later-arriving event
carrying the earlier `lastReadAt = 3` overwrites the cursor back to 3,
refuting "a participant's lastReadAt is never overwritten by an event
carrying an earlier lastReadAt". -/
theorem chat_read_cursor_regression_cex :
    findRead (handleChatRead "o1" [] crpLate) "u"
      = some { userId := "u", lastReadMessageId := "m5", lastReadAt := 5 }
    ∧ findRead (handleChatRead "o1" (handleChatRead "o1" [] crpLate) crpEarly) "u"
      = some { userId := "u", lastReadMessageId := "m3", lastReadAt := 3 } := by
  decide

/-- C5 (amended): a notification whose `readAt` is set never becomes unread
under any sequence of `notifications:new` / `notifications:read` /
`notifications:read-all` events; the chat read cursor, by contrast, is
last-write-wins — after any `chat:read` event for the active order the
named participant's cursor equals exactly that event's values, so an event
carrying an earlier `lastReadAt` does overwrite a later one. -/
theorem read_state_monotone_amended :
    (∀ evs ns i n, findNotif ns i = some n → n.readAt.isSome = true →
      ∃ n', findNotif (applyNotifEvents ns evs) i = some n'
        ∧ n'.readAt.isSome = true)
    ∧ (∀ aid reads p, p.orderId = aid →
      findRead (handleChatRead aid reads p) p.userId =
        some { userId := p.userId, lastReadMessageId := p.lastReadMessageId
               lastReadAt := p.lastReadAt }) := by
  refine ⟨fun evs => notif_read_preserved_events evs, ?_⟩
  intro aid reads p hp
  rw [handleChatRead, if_pos hp]
  exact findRead_recordSet reads p.userId _

def notifRead4 : NotificationItem :=
  { id := "n1", title := "Order", body := "shipped", readAt := some 4, createdAt := 2 }

def notifFresh : NotificationItem :=
  { id := "n2", title := "t", body := "b", readAt := none, createdAt := 10 }

/-- Witness for `read_state_monotone_amended`: notification `n1` (read at 4)
stays read across a `read-all` and a fresh `notifications:new`; a `chat:read`
for the active order writes exactly the event's cursor. -/
theorem read_state_monotone_amended_witness :
    (∃ n', findNotif (applyNotifEvents [notifRead4]
        [NotifEvent.readAll 9, NotifEvent.newNotif notifFresh]) "n1" = some n'
      ∧ n'.readAt.isSome = true)
    ∧ findRead (handleChatRead "o1" [] crpLate) "u" =
        some { userId := "u", lastReadMessageId := "m5", lastReadAt := 5 } := by
  refine ⟨read_state_monotone_amended.1 _ [notifRead4] "n1" notifRead4 (by decide) (by decide), ?_⟩
  exact read_state_monotone_amended.2 "o1" [] crpLate rfl

/-! ## Cart Constraint Enforcer (four add-to-cart call sites)

Every call site runs one `addCartItem` call and reacts to the thrown error by
testing `err.message.includes('409')`.  The thrown error is embedded as the
`Except.error` string; `String.includes` is embedded as a substring check.
Each handler is a function from the result of its single `addCartItem`
attempt to the observable outcome (message shown, whether it navigates to the
cart view, and whether it issues any further add attempt — no catch block in
the source contains one). -/

def subOccursAt : List Char → List Char → Bool
  | [], _ => true
  | _ :: _, [] => false
  | a :: as, b :: bs => a = b && subOccursAt as bs

def subOccurs (needle : List Char) : List Char → Bool
  | [] => subOccursAt needle []
  | c :: cs => subOccursAt needle (c :: cs) || subOccurs needle cs

/-- JS `hay.includes(needle)` on strings. -/
def strIncludes (hay needle : String) : Bool :=
  subOccurs needle.data hay.data

structure AddToCartOutcome where
  message : String
  navToCart : Bool
  /-- number of further `addCartItem` calls issued by the handler's reaction -/
  extraAddCalls : Nat
deriving DecidableEq, Repr

/-- Handler `onAddToCart` of the product-detail page (lines 645-673 of the file also
holding the chat page): success navigates to the cart; a 409 shows the
single-vendor message and navigates to the cart; other failures only show a
message. -/
def productDetailAddOutcome (res : Except String Unit) : AddToCartOutcome :=
  match res with
  | .ok _ => { message := "Added to cart.", navToCart := true, extraAddCalls := 0 }
  | .error e =>
    if strIncludes e "409" then
      { message := "Single-vendor cart only. Remove current cart items first."
        navToCart := true, extraAddCalls := 0 }
    else
      { message := "Failed to add to cart.", navToCart := false, extraAddCalls := 0 }

/-- Handler `onConfirmAddToCart` of HomeCatalogSection.tsx (lines 272-292). -/
def homeCatalogAddOutcome (res : Except String Unit) : AddToCartOutcome :=
  match res with
  | .ok _ => { message := "", navToCart := true, extraAddCalls := 0 }
  | .error e =>
    if strIncludes e "409" then
      { message := "Single-vendor cart only. Clear cart before adding another vendor product."
        navToCart := true, extraAddCalls := 0 }
    else
      { message := "Failed to add product to cart.", navToCart := false, extraAddCalls := 0 }

/-- Handler `onConfirmAddToCart` of the wishlist page (lines 111-133). -/
def wishlistAddOutcome (res : Except String Unit) : AddToCartOutcome :=
  match res with
  | .ok _ => { message := "", navToCart := false, extraAddCalls := 0 }
  | .error e =>
    if strIncludes e "409" then
      { message := "Single-vendor cart only. Clear cart first."
        navToCart := true, extraAddCalls := 0 }
    else
      { message := "Failed to add item to cart.", navToCart := false, extraAddCalls := 0 }

/-- Handler `onConfirmAddToCart` of the products-list page (part_012 lines 179-199). -/
def productsListAddOutcome (res : Except String Unit) : AddToCartOutcome :=
  match res with
  | .ok _ => { message := "", navToCart := true, extraAddCalls := 0 }
  | .error e =>
    if strIncludes e "409" then
      { message := "Single-vendor cart only. Clear cart first."
        navToCart := true, extraAddCalls := 0 }
    else
      { message := "Failed to add item", navToCart := false, extraAddCalls := 0 }

/-- C6 counterexample: on the same 409 conflict response, the product-detail
page and the home-catalog section present different messages — the outcome is
not identical at every call site. -/
theorem conflict_outcome_not_identical_cex :
    (productDetailAddOutcome (Except.error "API error 409: single-vendor cart")).message
      ≠ (homeCatalogAddOutcome (Except.error "API error 409: single-vendor cart")).message := by
  decide

/-- C6 (amended): every add-to-cart call site reacts to a 409 conflict by
presenting its own fixed single-vendor explanation, discarding the attempted
add (no further add call), and navigating to the cart view; the reaction is
uniform in shape but the message wording differs between call sites. -/
theorem conflict_outcome_per_site (e : String) (h : strIncludes e "409" = true) :
    productDetailAddOutcome (Except.error e) =
      { message := "Single-vendor cart only. Remove current cart items first."
        navToCart := true, extraAddCalls := 0 }
    ∧ homeCatalogAddOutcome (Except.error e) =
      { message := "Single-vendor cart only. Clear cart before adding another vendor product."
        navToCart := true, extraAddCalls := 0 }
    ∧ wishlistAddOutcome (Except.error e) =
      { message := "Single-vendor cart only. Clear cart first."
        navToCart := true, extraAddCalls := 0 }
    ∧ productsListAddOutcome (Except.error e) =
      { message := "Single-vendor cart only. Clear cart first."
        navToCart := true, extraAddCalls := 0 } := by
  refine ⟨?_, ?_, ?_, ?_⟩ <;>
    simp [productDetailAddOutcome, homeCatalogAddOutcome, wishlistAddOutcome,
      productsListAddOutcome, h]

/-- Witness for `conflict_outcome_per_site` at the concrete conflict response
`"API error 409: single-vendor cart"`. -/
theorem conflict_outcome_per_site_witness :
    (productDetailAddOutcome (Except.error "API error 409: single-vendor cart")).navToCart = true
    ∧ (homeCatalogAddOutcome (Except.error "API error 409: single-vendor cart")).navToCart = true
    ∧ (wishlistAddOutcome (Except.error "API error 409: single-vendor cart")).navToCart = true
    ∧ (productsListAddOutcome (Except.error "API error 409: single-vendor cart")).extraAddCalls = 0 := by
  have h := conflict_outcome_per_site "API error 409: single-vendor cart" (by decide)
  exact ⟨by rw [h.1], by rw [h.2.1], by rw [h.2.2.1], by rw [h.2.2.2]⟩

/-! ## Badge Aggregator (`refreshCounts`, NavActionIcons.tsx lines 96-124)

The four count fetches run under a single `Promise.all` inside one
`try/catch`; the `catch` zeroes all four counters.  Each fetch outcome is an
`Except` parameter; the cart payload's `items` array and each line's `qty`
are optional in the source types, hence the nested `Option`s. -/

structure BadgeCounts where
  wishlistCount : Nat
  cartCount : Nat
  notificationCount : Nat
  chatUnreadCount : Nat
deriving DecidableEq, Repr

/-- Source expression `cartRes.items?.reduce((sum, item) => sum + (item.qty ?? 0), 0) ?? 0`. -/
def cartQtySum (items : Option (List (Option Nat))) : Nat :=
  match items with
  | none => 0
  | some l => l.foldl (fun sum q => sum + q.getD 0) 0

def refreshCounts (accessToken : Option String)
    (wishlistRes : Except Unit (List String))
    (cartRes : Except Unit (Option (List (Option Nat))))
    (unreadRes : Except Unit Nat)
    (unreadChatRes : Except Unit Nat) : BadgeCounts :=
  match accessToken with
  | none => ⟨0, 0, 0, 0⟩
  | some _ =>
    -- Promise.all: the `then` runs only when all four fulfilled; any
    -- rejection takes the catch, which zeroes every counter
    match wishlistRes, cartRes, unreadRes, unreadChatRes with
    | .ok w, .ok c, .ok n, .ok ch =>
      { wishlistCount := w.length, cartCount := cartQtySum c
        notificationCount := n, chatUnreadCount := ch }
    | _, _, _, _ => ⟨0, 0, 0, 0⟩

def isErrB {α β : Type} : Except α β → Bool
  | .error _ => true
  | .ok _ => false

/-- C9 counterexample: the wishlist fetch succeeds with one item while the
cart fetch fails — yet the wishlist counter is 0, not 1: a single failure
zeroes every counter, including those whose fetches succeeded. -/
theorem badge_partial_failure_cex :
    refreshCounts (some "tok") (Except.ok ["p1"]) (Except.error ())
        (Except.ok 2) (Except.ok 3)
      = ⟨0, 0, 0, 0⟩
    ∧ (refreshCounts (some "tok") (Except.ok ["p1"]) (Except.error ())
        (Except.ok 2) (Except.ok 3)).wishlistCount ≠ 1 := by
  decide

/-- C9 (amended): on a refresh trigger with a token present, if all four
fetches succeed the counters are exactly the fetched values; if ANY fetch
fails, all four counters reset to zero (the stale values are dropped, but
succeeded fetches are dropped with them). -/
theorem badge_refresh_all_or_nothing (tok : String)
    (wr : Except Unit (List String)) (cr : Except Unit (Option (List (Option Nat))))
    (nr : Except Unit Nat) (chr : Except Unit Nat) :
    (∀ w c n ch, wr = Except.ok w → cr = Except.ok c → nr = Except.ok n →
      chr = Except.ok ch →
      refreshCounts (some tok) wr cr nr chr =
        { wishlistCount := w.length, cartCount := cartQtySum c
          notificationCount := n, chatUnreadCount := ch })
    ∧ ((isErrB wr || isErrB cr || isErrB nr || isErrB chr) = true →
      refreshCounts (some tok) wr cr nr chr = ⟨0, 0, 0, 0⟩) := by
  constructor
  · intro w c n ch hw hc hn hch
    subst hw hc hn hch
    rfl
  · intro hfail
    cases wr with
    | error e => rfl
    | ok w =>
      cases cr with
      | error e => rfl
      | ok c =>
        cases nr with
        | error e => rfl
        | ok n =>
          cases chr with
          | error e => rfl
          | ok ch => simp [isErrB] at hfail

/-- Witness for `badge_refresh_all_or_nothing`: all four fetches succeed
(wishlist `["p1","p2"]`, cart lines with quantities 2 and 3, 4 unread
notifications, 1 unread chat) and the counters reflect them; and with a
failing chat fetch, everything is zero. -/
theorem badge_refresh_all_or_nothing_witness :
    refreshCounts (some "tok") (Except.ok ["p1", "p2"])
        (Except.ok (some [some 2, some 3])) (Except.ok 4) (Except.ok 1)
      = ⟨2, 5, 4, 1⟩
    ∧ refreshCounts (some "tok") (Except.ok ["p1", "p2"])
        (Except.ok (some [some 2, some 3])) (Except.ok 4) (Except.error ())
      = ⟨0, 0, 0, 0⟩ := by
  constructor
  · exact (badge_refresh_all_or_nothing "tok" (Except.ok ["p1", "p2"])
      (Except.ok (some [some 2, some 3])) (Except.ok 4) (Except.ok 1)).1
      ["p1", "p2"] (some [some 2, some 3]) 4 1 rfl rfl rfl rfl
  · exact (badge_refresh_all_or_nothing "tok" (Except.ok ["p1", "p2"])
      (Except.ok (some [some 2, some 3])) (Except.ok 4) (Except.error ())).2 (by decide)

end Eco
